import Mathlib

/-!
Verification of the OpenCopilot llm-server core against its specification.

The Python sources are embedded shallowly: pure functions become Lean
functions, objects become structures, Python exceptions become `Except` or
dedicated outcome constructors, and external collaborators (prompt loader,
chat model, vector search, database) become explicit function-valued
parameters, so every embedded operation is a total, executable Lean
definition.
-/

/-! ### JSON values (the payloads flowing through the llm-server) -/

/-- A JSON value: the type of objects handled by
`routes/lossy_compressors/truncate_json.py`. Numbers are modelled as `Int`
(no claim depends on float arithmetic). -/
inductive Json where
  | null
  | bool (b : Bool)
  | num (n : Int)
  | str (s : String)
  | arr (elems : List Json)
  | obj (members : List (String × Json))
deriving Inhabited

/-- Python truthiness of a JSON value (`bool(x)`): `None`, `False`, `0`,
`""`, `[]` and `{}` are falsy, everything else truthy. -/
def jsonTruthy : Json → Bool
  | .null => false
  | .bool b => b
  | .num n => !(n == 0)
  | .str s => !(s == "")
  | .arr xs => !xs.isEmpty
  | .obj kvs => !kvs.isEmpty

/-- Python truthiness of an optional string (`bool(s)` where `s` may be
`None`): `None` and `""` are falsy. -/
def optStrTruthy : Option String → Bool
  | none => false
  | some s => !(s == "")

/-- Python `not s` for an optional string. -/
def optStrFalsy (o : Option String) : Bool := !(optStrTruthy o)

/-- Python `not j` for an optional JSON value (`None` or a falsy value). -/
def jsonOptFalsy : Option Json → Bool
  | none => true
  | some j => !(jsonTruthy j)

/-! ### `routes/lossy_compressors/truncate_json.py` -/

mutual
/-- Embedding of `truncate_json(json_obj, max_elements)`: a list is sliced
to its first `max_elements` entries (`json_obj[:max_elements]` — the
elements themselves are not visited), a dict has the rule applied to every
value with keys kept in order, and anything else is returned as is. -/
def truncate_json (json_obj : Json) (max_elements : Nat) : Json :=
  match json_obj with
  | .arr xs => .arr (xs.take max_elements)
  | .obj kvs => .obj (truncate_json_members kvs max_elements)
  | j => j

/-- The dict comprehension inside `truncate_json`: apply `truncate_json`
to every value, keeping keys and their order. -/
def truncate_json_members (kvs : List (String × Json)) (max_elements : Nat) :
    List (String × Json) :=
  match kvs with
  | [] => []
  | (k, v) :: rest => (k, truncate_json v max_elements) :: truncate_json_members rest max_elements
end

mutual
/-- True iff every list anywhere inside the value (at any depth, also
inside other lists) has length at most `n` — the bound the spec asserts
for `truncate_json`'s output. -/
def listsBounded (n : Nat) : Json → Bool
  | .arr xs => decide (xs.length ≤ n) && listsBoundedArr n xs
  | .obj kvs => listsBoundedObj n kvs
  | _ => true

def listsBoundedArr (n : Nat) : List Json → Bool
  | [] => true
  | x :: xs => listsBounded n x && listsBoundedArr n xs

def listsBoundedObj (n : Nat) : List (String × Json) → Bool
  | [] => true
  | (_, v) :: rest => listsBounded n v && listsBoundedObj n rest
end

mutual
/-- True iff every list reachable without passing through another list
(i.e. at the root or below mapping values only) has length at most `n` —
the bound `truncate_json` actually guarantees. -/
def topListsBounded (n : Nat) : Json → Bool
  | .arr xs => decide (xs.length ≤ n)
  | .obj kvs => topListsBoundedObj n kvs
  | _ => true

def topListsBoundedObj (n : Nat) : List (String × Json) → Bool
  | [] => true
  | (_, v) :: rest => topListsBounded n v && topListsBoundedObj n rest
end

/-- The keys of a JSON object, in order (`None` for non-objects). -/
def objKeys : Json → Option (List String)
  | .obj kvs => some (kvs.map Prod.fst)
  | _ => none

mutual
/-- Structural equality test on JSON values (Python `==` on parsed JSON). -/
def jsonBeq : Json → Json → Bool
  | .null, .null => true
  | .bool a, .bool b => a == b
  | .num a, .num b => a == b
  | .str a, .str b => a == b
  | .arr xs, .arr ys => jsonBeqArr xs ys
  | .obj xs, .obj ys => jsonBeqObj xs ys
  | _, _ => false

def jsonBeqArr : List Json → List Json → Bool
  | [], [] => true
  | x :: xs, y :: ys => jsonBeq x y && jsonBeqArr xs ys
  | _, _ => false

def jsonBeqObj : List (String × Json) → List (String × Json) → Bool
  | [], [] => true
  | (k, v) :: xs, (l, w) :: ys => k == l && jsonBeq v w && jsonBeqObj xs ys
  | _, _ => false
end

mutual
theorem jsonBeq_iff : ∀ a b : Json, jsonBeq a b = true ↔ a = b
  | .null, .null => by simp [jsonBeq]
  | .bool a, .bool b => by simp [jsonBeq]
  | .num a, .num b => by simp [jsonBeq]
  | .str a, .str b => by simp [jsonBeq]
  | .arr xs, .arr ys => by simp [jsonBeq, jsonBeqArr_iff xs ys]
  | .obj xs, .obj ys => by simp [jsonBeq, jsonBeqObj_iff xs ys]
  | .null, .bool _ | .null, .num _ | .null, .str _ | .null, .arr _ | .null, .obj _
  | .bool _, .null | .bool _, .num _ | .bool _, .str _ | .bool _, .arr _ | .bool _, .obj _
  | .num _, .null | .num _, .bool _ | .num _, .str _ | .num _, .arr _ | .num _, .obj _
  | .str _, .null | .str _, .bool _ | .str _, .num _ | .str _, .arr _ | .str _, .obj _
  | .arr _, .null | .arr _, .bool _ | .arr _, .num _ | .arr _, .str _ | .arr _, .obj _
  | .obj _, .null | .obj _, .bool _ | .obj _, .num _ | .obj _, .str _ | .obj _, .arr _ => by
    simp [jsonBeq]

theorem jsonBeqArr_iff : ∀ xs ys : List Json, jsonBeqArr xs ys = true ↔ xs = ys
  | [], [] => by simp [jsonBeqArr]
  | [], _ :: _ => by simp [jsonBeqArr]
  | _ :: _, [] => by simp [jsonBeqArr]
  | x :: xs, y :: ys => by
    simp [jsonBeqArr, jsonBeq_iff x y, jsonBeqArr_iff xs ys]

theorem jsonBeqObj_iff :
    ∀ xs ys : List (String × Json), jsonBeqObj xs ys = true ↔ xs = ys
  | [], [] => by simp [jsonBeqObj]
  | [], _ :: _ => by simp [jsonBeqObj]
  | _ :: _, [] => by simp [jsonBeqObj]
  | (k, v) :: xs, (l, w) :: ys => by
    simp [jsonBeqObj, jsonBeq_iff v w, jsonBeqObj_iff xs ys, Prod.ext_iff, and_assoc]
end

instance : DecidableEq Json :=
  fun a b => decidable_of_iff (jsonBeq a b = true) (jsonBeq_iff a b)

mutual
theorem truncate_json_idem (j : Json) (n : Nat) :
    truncate_json (truncate_json j n) n = truncate_json j n := by
  match j with
  | .null => rfl
  | .bool _ => rfl
  | .num _ => rfl
  | .str _ => rfl
  | .arr xs => simp [truncate_json, List.take_take]
  | .obj kvs => simp [truncate_json, truncate_json_members_idem kvs n]

theorem truncate_json_members_idem (kvs : List (String × Json)) (n : Nat) :
    truncate_json_members (truncate_json_members kvs n) n = truncate_json_members kvs n := by
  match kvs with
  | [] => rfl
  | (k, v) :: rest =>
    simp [truncate_json_members, truncate_json_idem v n, truncate_json_members_idem rest n]
end

mutual
theorem truncate_json_topBounded (j : Json) (n : Nat) :
    topListsBounded n (truncate_json j n) = true := by
  match j with
  | .null => rfl
  | .bool _ => rfl
  | .num _ => rfl
  | .str _ => rfl
  | .arr xs =>
    simp [truncate_json, topListsBounded, List.length_take]
  | .obj kvs => simpa [truncate_json, topListsBounded] using truncate_json_members_topBounded kvs n

theorem truncate_json_members_topBounded (kvs : List (String × Json)) (n : Nat) :
    topListsBoundedObj n (truncate_json_members kvs n) = true := by
  match kvs with
  | [] => rfl
  | (k, v) :: rest =>
    simp [truncate_json_members, topListsBoundedObj, truncate_json_topBounded v n,
      truncate_json_members_topBounded rest n]
end

/-- C8: `truncate_json` is idempotent — truncating twice with the same
bound equals truncating once, for every JSON value and bound. -/
theorem C8_truncate_json_idempotent :
    ∀ (x : Json) (n : Nat), truncate_json (truncate_json x n) n = truncate_json x n :=
  fun x n => truncate_json_idem x n

/-- C3 counterexample: `truncate_json` does not cut lists nested inside
other lists, so the spec's consequence "every list in the result has
length at most n" fails: truncating `[[1,2,3,4]]` with bound 3 leaves the
inner list of length 4 intact. -/
theorem C3_truncate_json_counterexample :
    truncate_json (Json.arr [Json.arr [Json.num 1, Json.num 2, Json.num 3, Json.num 4]]) 3
      = Json.arr [Json.arr [Json.num 1, Json.num 2, Json.num 3, Json.num 4]]
    ∧ listsBounded 3
        (truncate_json (Json.arr [Json.arr [Json.num 1, Json.num 2, Json.num 3, Json.num 4]]) 3)
      = false := by
  constructor
  · rfl
  · rfl

/-- C3 amended: `truncate_json` cuts each list reached at the root or
through mapping values only to its first `n` entries (order preserved,
without visiting the list's elements), applies the rule to every value of
a mapping with keys and key order preserved, and passes scalars through
unchanged; consequently every list not nested inside another list in the
result has length at most `n`, and the scenario
`truncate_json({"a": [1..7]}, 3) = {"a": [1,2,3]}` holds. -/
theorem C3_truncate_json_amended :
    (∀ (x : Json) (n : Nat), topListsBounded n (truncate_json x n) = true)
    ∧ (∀ (xs : List Json) (n : Nat), truncate_json (Json.arr xs) n = Json.arr (xs.take n))
    ∧ (∀ (kvs : List (String × Json)) (n : Nat),
        objKeys (truncate_json (Json.obj kvs) n) = some (kvs.map Prod.fst))
    ∧ (∀ (s : String) (n : Nat), truncate_json (Json.str s) n = Json.str s)
    ∧ (∀ (b : Bool) (n : Nat), truncate_json (Json.bool b) n = Json.bool b)
    ∧ (∀ (i : Int) (n : Nat), truncate_json (Json.num i) n = Json.num i)
    ∧ (∀ (n : Nat), truncate_json Json.null n = Json.null)
    ∧ truncate_json
        (Json.obj [("a", Json.arr [Json.num 1, Json.num 2, Json.num 3, Json.num 4,
          Json.num 5, Json.num 6, Json.num 7])]) 3
      = Json.obj [("a", Json.arr [Json.num 1, Json.num 2, Json.num 3])] := by
  refine ⟨fun x n => truncate_json_topBounded x n, fun xs n => rfl, ?_, fun s n => rfl,
    fun b n => rfl, fun i n => rfl, fun n => rfl, rfl⟩
  intro kvs n
  induction kvs with
  | nil => rfl
  | cons kv rest ih =>
    simp [truncate_json, truncate_json_members, objKeys] at ih ⊢
    exact ih

/-! ### `utils/swagger_parser.py` -/

/-- Embedding of the `Endpoint` class: one path × method pair of the
Swagger document. Fields obtained by `.get(...)` in the source are
`Option`-valued. -/
structure Endpoint where
  operation_id : Option String
  type : String
  name : Option String
  description : Option String
  request_body : Option Json
  request_parameters : Option Json
  response : Option Json
  path : String
deriving Inhabited, DecidableEq

/-- The data of one method entry of a Swagger `paths` item, as read by
`SwaggerParser.get_endpoints` via `.get`. -/
structure MethodData where
  operationId : Option String
  summary : Option String
  description : Option String
  requestBody : Option Json
  parameters : Option Json
  responses : Option Json
deriving Inhabited, DecidableEq

/-- The slice of a parsed Swagger document `SwaggerParser` reads: the
`paths` map (path → method → method data) and
`components.securitySchemes` (name → scheme `type`, `None` when the
scheme has no `type` key). -/
structure SwaggerDoc where
  paths : List (String × List (String × MethodData))
  securitySchemes : List (String × Option String)
deriving Inhabited, DecidableEq

/-- Embedding of `get_post_endpoints_without_request_body(endpoints)`. -/
def get_post_endpoints_without_request_body (endpoints : List Endpoint) : List Endpoint :=
  endpoints.filter (fun e => e.type == "POST" && jsonOptFalsy e.request_body)

/-- Embedding of `get_endpoints_without_name(endpoints)`. -/
def get_endpoints_without_name (endpoints : List Endpoint) : List Endpoint :=
  endpoints.filter (fun e => optStrFalsy e.name)

/-- Embedding of `get_endpoints_without_description(endpoints)`. -/
def get_endpoints_without_description (endpoints : List Endpoint) : List Endpoint :=
  endpoints.filter (fun e => optStrFalsy e.description)

/-- Embedding of `get_endpoints_without_operation_id(endpoints)`. -/
def get_endpoints_without_operation_id (endpoints : List Endpoint) : List Endpoint :=
  endpoints.filter (fun e => optStrFalsy e.operation_id)

/-- The class constants `NONE`, `API_KEY`, `HTTP`, `OAUTH2` of
`SwaggerParser`, as the list they are tested against in
`get_authorization_type`. -/
def auth_scheme_types : List String := ["none", "apiKey", "http", "oauth2"]

/-- The loop of `SwaggerParser.get_authorization_type`: the first security
scheme whose `type` is among `auth_scheme_types`; `None` if there is none
(a scheme without a `type` key is skipped, since `None` is not in the
list). -/
def first_auth_scheme : List (String × Option String) → Option String
  | [] => none
  | (_, some s) :: rest =>
    if s ∈ auth_scheme_types then some s else first_auth_scheme rest
  | (_, none) :: rest => first_auth_scheme rest

/-- Embedding of `SwaggerParser.get_authorization_type`. -/
def get_authorization_type (doc : SwaggerDoc) : Option String :=
  first_auth_scheme doc.securitySchemes

/-- Python `str.upper()` (`method.upper()` in `get_endpoints`), written as
a character-wise map so that proofs can evaluate it on literals. -/
def string_upper (s : String) : String := String.mk (s.data.map Char.toUpper)

/-- Embedding of `SwaggerParser.get_endpoints`: one `Endpoint` per path × method pair,
with the method name uppercased. -/
def get_endpoints (doc : SwaggerDoc) : List Endpoint :=
  (doc.paths.map (fun pd =>
    pd.2.map (fun md =>
      { operation_id := md.2.operationId
        type := string_upper md.1
        name := md.2.summary
        description := md.2.description
        request_body := md.2.requestBody
        request_parameters := md.2.parameters
        response := md.2.responses
        path := pd.1 }))).flatten

/-- The dictionary returned by `SwaggerParser.get_validations`. The source
serializes each endpoint with `to_dict()` (a field-for-field bijection);
we keep the `Endpoint` records. There is no key for POST endpoints
without a request body. -/
structure ValidationReport where
  endpoints_without_operation_id : List Endpoint
  endpoints_without_description : List Endpoint
  endpoints_without_name : List Endpoint
  auth_type : Option String
deriving Inhabited, DecidableEq

/-- Embedding of `SwaggerParser.get_validations`. -/
def get_validations (doc : SwaggerDoc) : ValidationReport :=
  let endpoints := get_endpoints doc
  { endpoints_without_operation_id := get_endpoints_without_operation_id endpoints
    endpoints_without_description := get_endpoints_without_description endpoints
    endpoints_without_name := get_endpoints_without_name endpoints
    auth_type := get_authorization_type doc }

/-- A Swagger document with a single fully-annotated POST endpoint that
has no request body. -/
def swaggerDocNoBody : SwaggerDoc :=
  { paths := [("/pets", [("post",
      { operationId := some "addPet"
        summary := some "Add a pet"
        description := some "Adds a pet"
        requestBody := none
        parameters := none
        responses := none })])]
    securitySchemes := [] }

/-- The same document, except the POST endpoint now has a request body. -/
def swaggerDocWithBody : SwaggerDoc :=
  { paths := [("/pets", [("post",
      { operationId := some "addPet"
        summary := some "Add a pet"
        description := some "Adds a pet"
        requestBody := some (Json.obj [("content", Json.str "application-json")])
        parameters := none
        responses := none })])]
    securitySchemes := [] }

/-- C4 counterexample: two documents that differ exactly in whether their
POST endpoint has a request body produce the *same* validation report,
while the POST-without-request-body finding differs — so the report
returned by `get_validations` cannot contain that fourth finding: it only
holds the three missing-field findings plus the auth scheme. -/
theorem C4_get_validations_counterexample :
    get_validations swaggerDocNoBody = get_validations swaggerDocWithBody
    ∧ (get_post_endpoints_without_request_body (get_endpoints swaggerDocNoBody)).length = 1
    ∧ (get_post_endpoints_without_request_body (get_endpoints swaggerDocWithBody)).length = 0 := by
  refine ⟨by decide, by decide, by decide⟩

/-- C4 amended: the validation report partitions the endpoints into
*three* findings — missing operation id, missing name, missing
description (each list holding exactly the endpoints of the document with
that field falsy) — plus the first detected authorization scheme among
none/apiKey/http/oauth2; the POST-without-request-body finding is
computed by a separate helper (characterized below) but is not part of
the report. -/
theorem C4_get_validations_amended (doc : SwaggerDoc) :
    (∀ e, e ∈ (get_validations doc).endpoints_without_operation_id
      ↔ e ∈ get_endpoints doc ∧ optStrFalsy e.operation_id = true)
    ∧ (∀ e, e ∈ (get_validations doc).endpoints_without_name
      ↔ e ∈ get_endpoints doc ∧ optStrFalsy e.name = true)
    ∧ (∀ e, e ∈ (get_validations doc).endpoints_without_description
      ↔ e ∈ get_endpoints doc ∧ optStrFalsy e.description = true)
    ∧ (get_validations doc).auth_type = first_auth_scheme doc.securitySchemes
    ∧ (∀ e, e ∈ get_post_endpoints_without_request_body (get_endpoints doc)
      ↔ e ∈ get_endpoints doc ∧ e.type = "POST" ∧ jsonOptFalsy e.request_body = true) := by
  refine ⟨?_, ?_, ?_, rfl, ?_⟩
  · intro e
    simp [get_validations, get_endpoints_without_operation_id, List.mem_filter]
  · intro e
    simp [get_validations, get_endpoints_without_name, List.mem_filter]
  · intro e
    simp [get_validations, get_endpoints_without_description, List.mem_filter]
  · intro e
    simp [get_post_endpoints_without_request_body, List.mem_filter]

/-! ### `routes/workflow/utils/process_conversation_step.py` -/

/-- The record returned by `load_prompts(bot_id)` (the prompt-override
registry of `integrations/custom_prompts/prompt_loader.py`): an optional
custom system message for the bot. -/
structure PromptTemplates where
  system_message : Option String

/-- The role of a prompt message (`SystemMessage` / `HumanMessage` of
langchain). -/
inductive Role where
  | system
  | human
deriving DecidableEq

/-- One prompt message: a role plus its content string. -/
structure Msg where
  role : Role
  content : String
deriving DecidableEq

/-- The `BotMessage` result type of the orchestrator: operation ids to
invoke plus a free-text reply. -/
structure BotMessage where
  ids : List String
  bot_message : String
deriving DecidableEq

/-- The outcome of `parse_bot_message(content)` as observed by the
caller's `try/except`: a parsed `BotMessage`, a raised
`OutputParserException`, or any other raised exception (carrying
`str(e)`). -/
inductive ParseOutcome where
  | parsed (d : BotMessage)
  | outputParserError (e : String)
  | otherError (e : String)

/-- A collaborator invocation of `process_conversation_step`, recorded in
order: the `load_prompts(bot_id)` lookup and the single `chat(messages)`
completion call. -/
inductive Effect where
  | loadPrompts (bot_id : String)
  | chatCall (messages : List Msg)
deriving DecidableEq

/-- The collaborators of `process_conversation_step`, passed explicitly:
the prompt-override loader, the chat completion model, the bot-message
extractor, and `json.dumps` on strings and on serialized lists (their
exact rendering is irrelevant to every claim, so they stay abstract). -/
structure Env where
  load_prompts : String → PromptTemplates
  chat : List Msg → String
  parse_bot_message : String → ParseOutcome
  dumps : String → String
  dumpsList : List String → String

/-- The generic default system instruction of the orchestrator. -/
def default_system_content : String :=
  "You are a helpful ai assistant. User will give you two things, a list of api\x27s and some useful information, called context."

/-- Lines 35–41 of the source: the default `system_message_classifier`,
overwritten by the bot's custom system prompt exactly when `app` is
truthy and the loaded prompt override defines a system message. -/
def system_message_resolved (env : Env) (app : Option String) (bot_id : String) : Msg :=
  if optStrTruthy app && ((env.load_prompts bot_id).system_message).isSome then
    Msg.mk Role.system (((env.load_prompts bot_id).system_message).getD "")
  else
    Msg.mk Role.system default_system_content

/-- The evidence message of the first branch: context, API summaries and
flows all present, flows taking precedence. -/
def all_three_message (env : Env) (context : String) (api_summaries flows : List String) : Msg :=
  Msg.mk Role.human ("Here is some relevant context I found that might be helpful - ```"
    ++ env.dumps context
    ++ "```. Also, here is the excerpt from API swagger for the APIs I think might be helpful in answering the question ```"
    ++ env.dumpsList api_summaries
    ++ "```. I also found some api flows, that maybe able to answer the following question ```"
    ++ env.dumpsList flows
    ++ "```. If one of the flows can accurately answer the question, then set `id` in the response should be the ids defined in the flows. Flows should take precedence over the api_summaries")

/-- The evidence message of the second branch: context plus API
summaries. -/
def context_and_summaries_message (env : Env) (context : String) (api_summaries : List String) : Msg :=
  Msg.mk Role.human ("Here is some relevant context I found that might be helpful - ```"
    ++ env.dumps context
    ++ "```. Also, here is the excerpt from API swagger for the APIs I think might be helpful in answering the question ```"
    ++ env.dumpsList api_summaries
    ++ "```. ")

/-- The evidence message of the third branch: context only. -/
def context_only_message (env : Env) (context : String) : Msg :=
  Msg.mk Role.human ("I found some relevant context that might be helpful. Here is the context: ```"
    ++ env.dumps context
    ++ "```. ")

/-- The evidence message of the fourth branch: API summaries only. -/
def summaries_only_message (env : Env) (api_summaries : List String) : Msg :=
  Msg.mk Role.human ("I found API summaries that might be helpful in answering the question. Here are the api summaries: ```"
    ++ env.dumpsList api_summaries
    ++ "```. ")

/-- The fixed instruction demanding a JSON-shaped answer (the source is a
plain, non-f triple-quoted string, so its doubled braces are literal). -/
def json_format_instruction : Msg :=
  Msg.mk Role.human ("Based on the information provided to you I want you to answer the questions that follow. Your should respond with a json that looks like the following - \n    \x7b\x7b\n        \"ids\": [\"list\", \"of\", \"operationIds\", \"for apis to be called\"],\n        \"bot_message\": \"your response based on the instructions provided at the beginning\"\n    \x7d\x7d                \n    ")

/-- The fixed instruction permitting a clarifying question. -/
def clarifying_instruction : Msg :=
  Msg.mk Role.human "If you are unsure / confused, ask claryfying questions"

/-- Lines 48–91 of the source: the message sequence assembled for the
completion call — system instruction, prior turns, the `if/elif` evidence
branch, the JSON-format instruction, the clarifying instruction, and the
user text. -/
def built_messages (env : Env) (app : Option String) (user_requirement : String)
    (context : Option String) (api_summaries : List String)
    (prev_conversations : List Msg) (flows : List String) (bot_id : String) : List Msg :=
  let system_message_classifier := system_message_resolved env app bot_id
  let messages : List Msg := [system_message_classifier]
  let messages := if prev_conversations.isEmpty then messages else messages ++ prev_conversations
  let messages :=
    if optStrTruthy context && !api_summaries.isEmpty && !flows.isEmpty then
      messages ++ [all_three_message env (context.getD "") api_summaries flows]
    else if optStrTruthy context && decide (api_summaries.length > 0) then
      messages ++ [context_and_summaries_message env (context.getD "") api_summaries]
    else if optStrTruthy context then
      messages ++ [context_only_message env (context.getD "")]
    else if decide (api_summaries.length > 0) then
      messages ++ [summaries_only_message env api_summaries]
    else
      messages
  let messages := messages ++ [json_format_instruction]
  let messages := messages ++ [clarifying_instruction]
  messages ++ [Msg.mk Role.human user_requirement]

/-- Embedding of `process_conversation_step`: raise `ValueError` on an
empty session id; otherwise build the messages, call the model once, and
convert the parse outcome into a `BotMessage` without propagating parse
failures. The second component records the collaborator calls made, in
order. -/
def process_conversation_step (env : Env) (session_id : String) (app : Option String)
    (user_requirement : String) (context : Option String) (api_summaries : List String)
    (prev_conversations : List Msg) (flows : List String) (bot_id : String) :
    Except String BotMessage × List Effect :=
  if session_id = "" then
    (Except.error "Session id must be defined for chat conversations", [])
  else
    let messages := built_messages env app user_requirement context api_summaries
      prev_conversations flows bot_id
    let content := env.chat messages
    (match env.parse_bot_message content with
      | ParseOutcome.parsed d => Except.ok d
      | ParseOutcome.outputParserError _ => Except.ok (BotMessage.mk [] content)
      | ParseOutcome.otherError e => Except.ok (BotMessage.mk [] e),
     [Effect.loadPrompts bot_id, Effect.chatCall messages])

/-- The evidence-message selection of §4.5 step 3 of the spec, stated as
its own function: exactly one evidence message by precedence (all three →
combined with flow precedence; context and summaries; context alone;
summaries alone), or none at all. -/
def evidence_messages (env : Env) (context : Option String)
    (api_summaries flows : List String) : List Msg :=
  if optStrTruthy context && !api_summaries.isEmpty && !flows.isEmpty then
    [all_three_message env (context.getD "") api_summaries flows]
  else if optStrTruthy context && decide (api_summaries.length > 0) then
    [context_and_summaries_message env (context.getD "") api_summaries]
  else if optStrTruthy context then
    [context_only_message env (context.getD "")]
  else if decide (api_summaries.length > 0) then
    [summaries_only_message env api_summaries]
  else
    []

/-- The messages of the first completion call recorded in an effect
trace. -/
def sent_messages : List Effect → Option (List Msg)
  | [] => none
  | Effect.chatCall messages :: _ => some messages
  | _ :: rest => sent_messages rest

/-- The first message of the first completion call of a run. -/
def first_sent_message (r : Except String BotMessage × List Effect) : Option Msg :=
  (sent_messages r.2).bind List.head?

theorem built_messages_factored (env : Env) (app : Option String) (user_requirement : String)
    (context : Option String) (api_summaries : List String)
    (prev_conversations : List Msg) (flows : List String) (bot_id : String) :
    built_messages env app user_requirement context api_summaries prev_conversations flows bot_id
      = [system_message_resolved env app bot_id] ++ prev_conversations
        ++ evidence_messages env context api_summaries flows
        ++ [json_format_instruction, clarifying_instruction, Msg.mk Role.human user_requirement] := by
  cases prev_conversations with
  | nil =>
    simp only [built_messages, evidence_messages, List.isEmpty_nil]
    split_ifs <;> simp
  | cons p ps =>
    simp only [built_messages, evidence_messages, List.isEmpty_cons]
    split_ifs <;> simp_all

theorem evidence_messages_length_le_one (env : Env) (context : Option String)
    (api_summaries flows : List String) :
    (evidence_messages env context api_summaries flows).length ≤ 1 := by
  unfold evidence_messages
  split_ifs <;> simp

theorem process_conversation_step_trace (env : Env) (session_id : String) (app : Option String)
    (user_requirement : String) (context : Option String) (api_summaries : List String)
    (prev_conversations : List Msg) (flows : List String) (bot_id : String)
    (h : session_id ≠ "") :
    (process_conversation_step env session_id app user_requirement context api_summaries
        prev_conversations flows bot_id).2
      = [Effect.loadPrompts bot_id,
         Effect.chatCall (built_messages env app user_requirement context api_summaries
           prev_conversations flows bot_id)] := by
  simp [process_conversation_step, h]

/-- C1: for every call (with a defined session id), the message sequence
sent to the completion model is exactly the system instruction, the prior
turns verbatim in order, at most one evidence message chosen by the
spec's precedence, the JSON-format instruction, the clarifying-question
instruction, and the user text last; with empty history and no
context/summaries/flows exactly 4 messages are sent. -/
theorem C1_process_conversation_step_messages (env : Env) (session_id : String)
    (app : Option String) (user_requirement : String) (context : Option String)
    (api_summaries : List String) (prev_conversations : List Msg) (flows : List String)
    (bot_id : String) (h : session_id ≠ "") :
    (process_conversation_step env session_id app user_requirement context api_summaries
        prev_conversations flows bot_id).2
      = [Effect.loadPrompts bot_id,
         Effect.chatCall ([system_message_resolved env app bot_id] ++ prev_conversations
           ++ evidence_messages env context api_summaries flows
           ++ [json_format_instruction, clarifying_instruction,
               Msg.mk Role.human user_requirement])]
    ∧ (evidence_messages env context api_summaries flows).length ≤ 1
    ∧ (optStrTruthy context = false → api_summaries = [] → flows = [] →
        prev_conversations = [] →
        ([system_message_resolved env app bot_id] ++ prev_conversations
          ++ evidence_messages env context api_summaries flows
          ++ [json_format_instruction, clarifying_instruction,
              Msg.mk Role.human user_requirement]).length = 4) := by
  refine ⟨?_, evidence_messages_length_le_one env context api_summaries flows, ?_⟩
  · rw [process_conversation_step_trace env session_id app user_requirement context
      api_summaries prev_conversations flows bot_id h,
      built_messages_factored]
  · intro hc hs hf hp
    subst hs; subst hf; subst hp
    simp [evidence_messages, hc]

/-- C2: whatever text the completion model returns, the orchestrator
returns a `BotMessage` and never propagates a parse failure: a successful
parse is returned as given, a recognized output-shape mismatch yields
`{ids: [], bot_message: <raw model text>}`, and any other parse failure
yields `{ids: [], bot_message: <stringified error>}`. -/
theorem C2_process_conversation_step_parse_fallback
    (lp : String → PromptTemplates) (pb : String → ParseOutcome)
    (d : String → String) (dl : List String → String) (c : String)
    (session_id : String) (app : Option String) (user_requirement : String)
    (context : Option String) (api_summaries : List String)
    (prev_conversations : List Msg) (flows : List String) (bot_id : String)
    (h : session_id ≠ "") :
    (process_conversation_step (Env.mk lp (fun _ => c) pb d dl) session_id app
        user_requirement context api_summaries prev_conversations flows bot_id).1
      = Except.ok (match pb c with
          | ParseOutcome.parsed bm => bm
          | ParseOutcome.outputParserError _ => BotMessage.mk [] c
          | ParseOutcome.otherError e => BotMessage.mk [] e) := by
  simp only [process_conversation_step, if_neg h]
  cases hpb : pb c <;> simp [hpb]

/-- C6: with an empty session id the orchestrator fails immediately with
the `ValueError`, and its effect trace is empty — neither the
prompt-override lookup nor the completion call happens. -/
theorem C6_process_conversation_step_empty_session (env : Env) (app : Option String)
    (user_requirement : String) (context : Option String) (api_summaries : List String)
    (prev_conversations : List Msg) (flows : List String) (bot_id : String) :
    process_conversation_step env "" app user_requirement context api_summaries
        prev_conversations flows bot_id
      = (Except.error "Session id must be defined for chat conversations", []) := by
  simp [process_conversation_step]

/-- C10: the first message sent to the model is the resolved system
instruction; the custom system prompt replaces the generic default
exactly when the app identifier is truthy and the loaded prompt override
defines a system message, and a falsy app identifier (absent or empty)
yields the default even when a custom prompt is registered. -/
theorem C10_system_prompt_selection (env : Env) (session_id : String) (app : Option String)
    (user_requirement : String) (context : Option String) (api_summaries : List String)
    (prev_conversations : List Msg) (flows : List String) (bot_id : String)
    (h : session_id ≠ "") :
    first_sent_message (process_conversation_step env session_id app user_requirement
        context api_summaries prev_conversations flows bot_id)
      = some (system_message_resolved env app bot_id)
    ∧ (optStrTruthy app = true → ∀ sm, (env.load_prompts bot_id).system_message = some sm →
        system_message_resolved env app bot_id = Msg.mk Role.system sm)
    ∧ (optStrTruthy app = false →
        system_message_resolved env app bot_id = Msg.mk Role.system default_system_content)
    ∧ ((env.load_prompts bot_id).system_message = none →
        system_message_resolved env app bot_id = Msg.mk Role.system default_system_content) := by
  refine ⟨?_, ?_, ?_, ?_⟩
  · rw [first_sent_message, process_conversation_step_trace env session_id app user_requirement
      context api_summaries prev_conversations flows bot_id h]
    simp [sent_messages, built_messages_factored]
  · intro ha sm hsm
    simp [system_message_resolved, ha, hsm]
  · intro ha
    simp [system_message_resolved, ha]
  · intro hsm
    simp [system_message_resolved, hsm]

/-- A concrete collaborator assignment used by the witnesses: a bot with
a registered custom system prompt, a model that always answers with a
fixed non-JSON text, and an extractor that reports an output-shape
mismatch on it. -/
def envW : Env :=
  { load_prompts := fun _ => PromptTemplates.mk (some "You are the weather copilot")
    chat := fun _ => "It is sunny"
    parse_bot_message := fun s => ParseOutcome.outputParserError s
    dumps := fun s => s
    dumpsList := fun _ => "[]" }

/-- Witness for C1: the empty-history, no-evidence scenario at a concrete
session — the trace is exactly one prompt lookup and one completion call
whose message list has length 4. -/
theorem C1_witness :
    ("s1" : String) ≠ ""
    ∧ (process_conversation_step envW "s1" none "What is the weather" none [] [] [] "b1").2
      = [Effect.loadPrompts "b1",
         Effect.chatCall ([system_message_resolved envW none "b1"] ++ []
           ++ evidence_messages envW none [] []
           ++ [json_format_instruction, clarifying_instruction,
               Msg.mk Role.human "What is the weather"])]
    ∧ ([system_message_resolved envW none "b1"] ++ []
        ++ evidence_messages envW none [] []
        ++ [json_format_instruction, clarifying_instruction,
            Msg.mk Role.human "What is the weather"]).length = 4 := by
  have h := C1_process_conversation_step_messages envW "s1" none "What is the weather"
    none [] [] [] "b1" (by decide)
  exact ⟨by decide, h.1, h.2.2 rfl rfl rfl rfl⟩

/-- Witness for C2: with the concrete model text `"It is sunny"` and an
extractor raising the shape-mismatch condition, the result is
`{ids: [], bot_message: "It is sunny"}`. -/
theorem C2_witness :
    ("s1" : String) ≠ ""
    ∧ (process_conversation_step
        (Env.mk (fun _ => PromptTemplates.mk none) (fun _ => "It is sunny")
          (fun s => ParseOutcome.outputParserError s) (fun s => s) (fun _ => "[]"))
        "s1" none "What is the weather" none [] [] [] "b1").1
      = Except.ok (BotMessage.mk [] "It is sunny") := by
  refine ⟨by decide, ?_⟩
  exact C2_process_conversation_step_parse_fallback (fun _ => PromptTemplates.mk none)
    (fun s => ParseOutcome.outputParserError s) (fun s => s) (fun _ => "[]") "It is sunny"
    "s1" none "What is the weather" none [] [] [] "b1" (by decide)

/-- Witness for C10: at a concrete call with a registered custom prompt
but an absent app identifier, the first message sent is the generic
default system instruction. -/
theorem C10_witness :
    ("s1" : String) ≠ ""
    ∧ first_sent_message (process_conversation_step envW "s1" none "What is the weather"
        none [] [] [] "b1")
      = some (system_message_resolved envW none "b1")
    ∧ system_message_resolved envW none "b1" = Msg.mk Role.system default_system_content := by
  have h := C10_system_prompt_selection envW "s1" none "What is the weather"
    none [] [] [] "b1" (by decide)
  exact ⟨by decide, h.1, h.2.2.1 rfl⟩

/-! ### `routes/workflow/utils/api_retrievers.py` -/

/-- The `search_kwargs` passed to `as_retriever` by each retrieval
operation: result count, score threshold (kept as the raw string resolved
from the environment — no claim depends on its numeric value), and the
bot-id filter. -/
structure SearchKwargs where
  k : Nat
  score_threshold : String
  filter_bot_id : String
deriving DecidableEq

/-- A similarity-search hit: the passage text and the stored
`metadata["operation"]` payload (kept serialized). -/
structure Document where
  page_content : String
  metadata_operation : String
deriving DecidableEq

/-- The collaborators of the retrieval operations: `os.getenv` and the
three vector stores (`knowledgebase`, `flows`, `apis`), each a search that
either returns documents or raises (modelled as `Except.error`). -/
structure RetrieverEnv where
  getenv : String → Option String
  knowledgebase : SearchKwargs → String → Except String (List Document)
  flows : SearchKwargs → String → Except String (List Document)
  apis : SearchKwargs → String → Except String (List Document)

/-- Embedding of `get_relevant_docs`: knowledge-base search with `k = 3`,
threshold `SCORE_THRESHOLD_KB` (default `"0.65"`) and the bot-id filter;
non-empty results are joined with a blank line, anything else — including
a raised search error — yields `None`. -/
def get_relevant_docs (env : RetrieverEnv) (text : String) (bot_id : String) : Option String :=
  let score_threshold := (env.getenv "SCORE_THRESHOLD_KB").getD "0.65"
  match env.knowledgebase (SearchKwargs.mk 3 score_threshold bot_id) text with
  | Except.ok result =>
      if !result.isEmpty && decide (result.length > 0) then
        some (String.intercalate "\n\n" (result.map Document.page_content))
      else
        none
  | Except.error _ => none

/-- Embedding of `get_relevant_flows`: flow search with `k = 3`,
threshold `SCORE_THRESHOLD_KB` (default `"0.80"`) and the bot-id filter;
returns each hit's stored operation payload, or `[]` when the search
raises. -/
def get_relevant_flows (env : RetrieverEnv) (text : String) (bot_id : String) : List String :=
  let score_threshold := (env.getenv "SCORE_THRESHOLD_KB").getD "0.80"
  match env.flows (SearchKwargs.mk 3 score_threshold bot_id) text with
  | Except.ok results => results.map Document.metadata_operation
  | Except.error _ => []

/-- Embedding of `get_relevant_apis_summaries`: API-summary search with
`k = 5`, threshold `SCORE_THRESHOLD_KB` (default `"0.75"`) and the bot-id
filter; returns each hit's stored operation payload, or `[]` when the
search raises. -/
def get_relevant_apis_summaries (env : RetrieverEnv) (text : String) (bot_id : String) :
    List String :=
  let score_threshold := (env.getenv "SCORE_THRESHOLD_KB").getD "0.75"
  match env.apis (SearchKwargs.mk 5 score_threshold bot_id) text with
  | Except.ok results => results.map Document.metadata_operation
  | Except.error _ => []

/-- C7: when the underlying similarity searches fail (raise), none of the
three retrieval operations propagates the failure: the knowledge base
degrades to `None` and flows and API summaries degrade to the empty
list. -/
theorem C7_retrievers_degrade (env : RetrieverEnv) (text : String) (bot_id : String)
    (e1 e2 e3 : String)
    (h1 : ∀ kwargs t, env.knowledgebase kwargs t = Except.error e1)
    (h2 : ∀ kwargs t, env.flows kwargs t = Except.error e2)
    (h3 : ∀ kwargs t, env.apis kwargs t = Except.error e3) :
    get_relevant_docs env text bot_id = none
    ∧ get_relevant_flows env text bot_id = []
    ∧ get_relevant_apis_summaries env text bot_id = [] := by
  refine ⟨?_, ?_, ?_⟩
  · simp [get_relevant_docs, h1]
  · simp [get_relevant_flows, h2]
  · simp [get_relevant_apis_summaries, h3]

/-- A retrieval environment whose vector stores are unreachable: every
search raises. -/
def retrieverEnvFailing : RetrieverEnv :=
  { getenv := fun _ => none
    knowledgebase := fun _ _ => Except.error "vector store unreachable"
    flows := fun _ _ => Except.error "vector store unreachable"
    apis := fun _ _ => Except.error "vector store unreachable" }

/-- Witness for C7: with all three stores unreachable, the concrete
query degrades to `None` / `[]` / `[]`. -/
theorem C7_witness :
    (∀ kwargs t, retrieverEnvFailing.knowledgebase kwargs t
      = Except.error "vector store unreachable")
    ∧ (∀ kwargs t, retrieverEnvFailing.flows kwargs t
      = Except.error "vector store unreachable")
    ∧ (∀ kwargs t, retrieverEnvFailing.apis kwargs t
      = Except.error "vector store unreachable")
    ∧ (get_relevant_docs retrieverEnvFailing "What is the weather" "b1" = none
      ∧ get_relevant_flows retrieverEnvFailing "What is the weather" "b1" = []
      ∧ get_relevant_apis_summaries retrieverEnvFailing "What is the weather" "b1" = []) := by
  refine ⟨fun _ _ => rfl, fun _ _ => rfl, fun _ _ => rfl, ?_⟩
  exact C7_retrievers_degrade retrieverEnvFailing "What is the weather" "b1"
    "vector store unreachable" "vector store unreachable" "vector store unreachable"
    (fun _ _ => rfl) (fun _ _ => rfl) (fun _ _ => rfl)

/-! ### `routes/chat/chat_controller.py` — `send_chat` -/

/-- Modelled from the spec: the `ChatInput` dto (`routes/chat/chat_dto.py`
is not among the sources). Section 6 of the spec gives `POST /send` the
payload `{content, session_id, headers}`; `content` is optional here so
that an absent content can be expressed (`None` is falsy like `""`). -/
structure ChatInput where
  content : Option String
  session_id : String
  headers : List (String × String)
deriving DecidableEq

/-- The fields of a resolved `Chatbot` record that `send_chat` reads. -/
structure Chatbot where
  id : String
  swagger_url : String
  prompt_message : String
deriving DecidableEq

/-- The dictionary returned by `root_service.handle_request`, as read by
`send_chat` (`response_data["response"]` and `response_data["error"]`). -/
structure ResponseData where
  response : Option String
  error : Option String
deriving DecidableEq

/-- The collaborators of `send_chat`: `find_one_or_fail_by_token`
(returning `none` models its `NoResultFound` → raised `ValueError`),
`root_service.handle_request` (arguments: text, swagger url, session id,
base prompt, bot id, headers, server base url, app name), and
`create_chat_history` (bot id, session id, from-user flag, message). -/
structure ChatControllerEnv where
  find_one_by_token : String → Option Chatbot
  handle_request : String → String → String → String → String → List (String × String) →
    String → Option String → Except String ResponseData
  create_chat_history : String → String → Bool → Option String → Except String Unit

/-- The possible HTTP-level outcomes of `send_chat`: a Flask `abort`, a
plain `Response`, a `jsonify`-ed `{type: "text", response: {text: ...}}`
payload with a status, or an exception escaping the handler (a raw
unhandled fault at the transport). -/
inductive HttpResult where
  | aborted (status : Nat) (description : String)
  | plain (status : Nat) (body : String)
  | jsonText (status : Nat) (text : Option String)
  | uncaught (error : String)
deriving DecidableEq

/-- The `X_App_Name` header-key constant of `utils/llm_consts.py` (not
among the sources; its exact value is irrelevant to every claim). -/
def X_App_Name : String := "X-App-Name"

/-- Python `headers.pop(key, None)` on a dict modelled as an association
list: the popped value and the remaining entries. -/
def pop_header (headers : List (String × String)) (key : String) :
    Option String × List (String × String) :=
  (headers.lookup key, headers.filter (fun kv => !(kv.1 == key)))

/-- Python truthiness of a resolved `Chatbot` object: instances define no
`__bool__`/`__len__`, so `bool(bot)` is always `True` and the source's
`if not bot:` branch can never run. -/
def chatbotTruthy (_ : Chatbot) : Bool := true

/-- Python `a or b` on two optional strings: `a` when truthy, else `b`. -/
def pyOrOptStr (a b : Option String) : Option String :=
  if optStrTruthy a then a else b

/-- The user-facing b500 apology embedding the error detail. -/
def b500_message (e : String) : String :=
  "I\x27m unable to help you at the moment, please try again later. **code: b500**\n```" ++ e ++ "```"

/-- Embedding of `send_chat`: reject falsy or oversized content with a
400; reject a missing bot token with a plain 500; resolving an unknown
token raises (uncaught `ValueError`); the `if not bot:` 404 branch of the
source is kept as the unreachable `if false` (a resolved `Chatbot` object
is always truthy); the `try` block maps any failure of the pipeline or of
history persistence to the b500 apology payload. -/
def send_chat (env : ChatControllerEnv) (input : ChatInput) (bot_token : Option String)
    (server_base_url : String) : HttpResult :=
  let message := input.content
  let session_id := input.session_id
  let headers_from_json := input.headers
  if optStrFalsy message || decide ((message.getD "").length > 255) then
    HttpResult.aborted 400 "Invalid content, the size is larger than 255 char"
  else if optStrFalsy bot_token then
    HttpResult.plain 500 "bot token is required"
  else
    match env.find_one_by_token (bot_token.getD "") with
    | none => HttpResult.uncaught ("No Chatbot found with token: " ++ bot_token.getD "")
    | some bot =>
      let app_name := (pop_header headers_from_json X_App_Name).1
      let headers_rest := (pop_header headers_from_json X_App_Name).2
      if !(chatbotTruthy bot) then
        HttpResult.jsonText 404
          (some "I\x27m unable to help you at the moment, please try again later. **code: b404**")
      else
        match env.handle_request (message.getD "") bot.swagger_url session_id
            bot.prompt_message bot.id headers_rest server_base_url app_name with
        | Except.error e => HttpResult.jsonText 500 (some (b500_message e))
        | Except.ok response_data =>
          match env.create_chat_history bot.id session_id true message with
          | Except.error e => HttpResult.jsonText 500 (some (b500_message e))
          | Except.ok _ =>
            match env.create_chat_history bot.id session_id false
                (pyOrOptStr response_data.response response_data.error) with
            | Except.error e => HttpResult.jsonText 500 (some (b500_message e))
            | Except.ok _ => HttpResult.jsonText 200 response_data.response

/-- A controller environment in which no token resolves to a bot. -/
def chatEnvNoBots : ChatControllerEnv :=
  { find_one_by_token := fun _ => none
    handle_request := fun _ _ _ _ _ _ _ _ => Except.error "unused"
    create_chat_history := fun _ _ _ _ => Except.ok () }

/-- C5 (code-bug evidence): `send_chat` never produces a 404-status
payload at all — the source's 404 branch is unreachable — and at the
failing inputs an unknown token escapes as an uncaught `ValueError`
(a raw unhandled fault) while an absent token yields a plain 500, not the
scripted 404-shaped text reply the spec (and the dead branch) intend. -/
theorem C5_token_not_resolved_uncaught :
    (∀ (env : ChatControllerEnv) (input : ChatInput) (bot_token : Option String)
        (server_base_url : String) (t : Option String),
      ((send_chat env input bot_token server_base_url == HttpResult.jsonText 404 t) = false))
    ∧ send_chat chatEnvNoBots (ChatInput.mk (some "What is the weather") "s1" [])
        (some "unknown-token") ""
      = HttpResult.uncaught "No Chatbot found with token: unknown-token"
    ∧ send_chat chatEnvNoBots (ChatInput.mk (some "What is the weather") "s1" []) none ""
      = HttpResult.plain 500 "bot token is required" := by
  refine ⟨?_, by decide, by decide⟩
  intro env input bot_token server_base_url t
  simp only [send_chat, chatbotTruthy, Bool.not_true, Bool.false_eq_true, if_false]
  split_ifs
  · rfl
  · rfl
  · split
    · rfl
    · split
      · rfl
      · split
        · rfl
        · split
          · rfl
          · rfl

/-- C9: a request whose content is falsy (absent or empty) is rejected
with the 400 of the size-limit branch, for every collaborator assignment —
so no bot resolution, retrieval, completion, or persistence call can
influence (or be reached by) the rejection. -/
theorem C9_empty_content_rejected (env : ChatControllerEnv) (input : ChatInput)
    (bot_token : Option String) (server_base_url : String)
    (h : optStrFalsy input.content = true) :
    send_chat env input bot_token server_base_url
      = HttpResult.aborted 400 "Invalid content, the size is larger than 255 char" := by
  simp [send_chat, h]

/-- Witness for C9: the concrete absent-content request is rejected with
the 400. -/
theorem C9_witness :
    optStrFalsy (ChatInput.mk none "s1" []).content = true
    ∧ send_chat chatEnvNoBots (ChatInput.mk none "s1" []) none ""
      = HttpResult.aborted 400 "Invalid content, the size is larger than 255 char" :=
  ⟨rfl, C9_empty_content_rejected chatEnvNoBots (ChatInput.mk none "s1" []) none "" rfl⟩
